import Mathlib

/-!
Verification of the scoring engine of the AI-trading stock screener.

The repository contains three families of strategy implementations:
  - `app22.py` (same rule set as `investment_screener_app.py`), the richest
    3-component family with the 4.0/3.5/3.0/2.5 grade thresholds;
  - `app.py`, a simplified 3-component family with the same thresholds;
  - `investment-strategy.py`, the 8-10 point family with the
    8.0/7.0/6.0/5.0 grade thresholds.
Python floats are embedded as rationals; every comparison in the source is
against an exactly representable decimal constant, so the branch structure is
preserved.  Each strategy method is embedded with one definition per local
score variable of the source, combined exactly as the source combines them.
-/

set_option maxHeartbeats 1000000

/-- Letter grade, an ordinal: S > A > B > C > D. -/
inductive Grade
  | D
  | C
  | B
  | A
  | S
  deriving DecidableEq, Repr

/-- Rank of a grade for the ordering S > A > B > C > D. -/
def Grade.rank : Grade → Nat
  | .D => 0
  | .C => 1
  | .B => 2
  | .A => 3
  | .S => 4

/-- Recommendation labels returned by get_recommendation. -/
inductive Rec
  | strongBuy
  | buy
  | hold
  | watch
  | avoid
  deriving DecidableEq, Repr

/-- InvestmentScore dataclass (identical in all three source files):
total score, grade, recommendation and the component breakdown in
evaluation order. -/
structure InvestmentScore where
  total_score : ℚ
  grade : Grade
  recommendation : Rec
  details : List (String × ℚ)
  deriving DecidableEq, Repr

namespace App22

/-- Stock dataclass of app22.py (also of investment_screener_app.py). -/
structure Stock where
  id : Int
  name : String
  code : String
  market : String
  sector : String
  current_price : ℚ
  currency : String
  debt_ratio : ℚ
  current_ratio : ℚ
  equity_ratio : ℚ
  credit_rating : String
  roe : ℚ
  roa : ℚ
  operating_margin : ℚ
  profit_margin : ℚ
  revenue_growth : ℚ
  profit_growth : ℚ
  eps_growth : ℚ
  per : ℚ
  pbr : ℚ
  dividend_yield : ℚ
  last_update : String
  deriving DecidableEq, Repr

/-- InvestmentStrategy.get_grade of app22.py: thresholds 4.0/3.5/3.0/2.5. -/
def get_grade (score : ℚ) : Grade :=
  if score ≥ 4.0 then Grade.S
  else if score ≥ 3.5 then Grade.A
  else if score ≥ 3.0 then Grade.B
  else if score ≥ 2.5 then Grade.C
  else Grade.D

/-- InvestmentStrategy.get_recommendation of app22.py. -/
def get_recommendation (grade : Grade) (stock : Stock) : Rec :=
  if grade = Grade.S ∧ stock.per ≤ 20 ∧ stock.pbr ≤ 3 then Rec.strongBuy
  else if grade = Grade.A ∧ stock.per ≤ 25 ∧ stock.pbr ≤ 4 then Rec.buy
  else if grade = Grade.B ∧ stock.per ≤ 30 then Rec.hold
  else if grade = Grade.C then Rec.watch
  else Rec.avoid

/-- moat_score local of BuffettStrategy.calculate_score (app22.py lines
131-148): three additive tier chains on roe, revenue_growth, profit_growth. -/
def BuffettStrategy.moat_score (stock : Stock) : ℚ :=
  (if stock.roe ≥ 15 then 1.5 else if stock.roe ≥ 10 then 1.0
   else if stock.roe ≥ 8 then 0.5 else 0)
  + (if stock.revenue_growth ≥ 10 then 1.0
     else if stock.revenue_growth ≥ 5 then 0.5 else 0)
  + (if stock.profit_growth ≥ 10 then 1.0
     else if stock.profit_growth ≥ 5 then 0.5 else 0)

/-- management_score local of BuffettStrategy.calculate_score (app22.py). -/
def BuffettStrategy.management_score (stock : Stock) : ℚ :=
  if stock.roe ≥ 15 ∧ stock.equity_ratio ≥ 70 ∧ stock.debt_ratio ≤ 30 then 2.0
  else if stock.roe ≥ 10 ∧ stock.equity_ratio ≥ 60 ∧ stock.debt_ratio ≤ 40 then 1.5
  else if stock.roe ≥ 8 ∧ stock.equity_ratio ≥ 50 then 1.0
  else 0.5

/-- health_score local of BuffettStrategy.calculate_score (app22.py). -/
def BuffettStrategy.health_score (stock : Stock) : ℚ :=
  if stock.equity_ratio ≥ 80 ∧ stock.debt_ratio ≤ 20 ∧ stock.current_ratio ≥ 2.0 then 2.0
  else if stock.equity_ratio ≥ 70 ∧ stock.debt_ratio ≤ 30 ∧ stock.current_ratio ≥ 1.5 then 1.5
  else if stock.equity_ratio ≥ 60 ∧ stock.debt_ratio ≤ 40 ∧ stock.current_ratio ≥ 1.2 then 1.0
  else 0.5

/-- BuffettStrategy.calculate_score of app22.py. -/
def BuffettStrategy.calculate_score (stock : Stock) : InvestmentScore :=
  let moat_score := BuffettStrategy.moat_score stock
  let management_score := BuffettStrategy.management_score stock
  let health_score := BuffettStrategy.health_score stock
  let total_score := moat_score + management_score + health_score
  let grade := get_grade total_score
  let recommendation := get_recommendation grade stock
  { total_score := total_score
    grade := grade
    recommendation := recommendation
    details := [("moat", moat_score), ("management", management_score),
                ("health", health_score)] }

/-- growth_score local of LynchStrategy.calculate_score (app22.py lines
198-215): PEG tier (guarded division, denominator floored at 1) plus
revenue-growth bonus. -/
def LynchStrategy.growth_score (stock : Stock) : ℚ :=
  let peg_ratio : ℚ :=
    if stock.per > 0 then stock.per / max stock.profit_growth 1 else 0
  (if peg_ratio ≤ 0.5 then 2.0 else if peg_ratio ≤ 1.0 then 1.5
   else if peg_ratio ≤ 1.5 then 1.0 else if peg_ratio ≤ 2.0 then 0.5 else 0)
  + (if stock.revenue_growth ≥ 20 then 1.5 else if stock.revenue_growth ≥ 15 then 1.0
     else if stock.revenue_growth ≥ 10 then 0.5 else 0)

/-- valuation_score local of LynchStrategy.calculate_score (app22.py). -/
def LynchStrategy.valuation_score (stock : Stock) : ℚ :=
  if stock.per ≤ 15 ∧ stock.pbr ≤ 3 then 1.5
  else if stock.per ≤ 25 ∧ stock.pbr ≤ 5 then 1.0
  else if stock.per ≤ 35 then 0.5
  else 0

/-- quality_score local of LynchStrategy.calculate_score (app22.py). -/
def LynchStrategy.quality_score (stock : Stock) : ℚ :=
  if stock.roe ≥ 15 ∧ stock.operating_margin ≥ 10 then 1.0
  else if stock.roe ≥ 10 ∧ stock.operating_margin ≥ 5 then 0.7
  else if stock.roe ≥ 8 then 0.3
  else 0

/-- LynchStrategy.calculate_score of app22.py. -/
def LynchStrategy.calculate_score (stock : Stock) : InvestmentScore :=
  let growth_score := LynchStrategy.growth_score stock
  let valuation_score := LynchStrategy.valuation_score stock
  let quality_score := LynchStrategy.quality_score stock
  let total_score := growth_score + valuation_score + quality_score
  let grade := get_grade total_score
  let recommendation := get_recommendation grade stock
  { total_score := total_score
    grade := grade
    recommendation := recommendation
    details := [("growth", growth_score), ("valuation", valuation_score),
                ("quality", quality_score)] }

/-- value_score local of GrahamStrategy.calculate_score (app22.py). -/
def GrahamStrategy.value_score (stock : Stock) : ℚ :=
  if stock.per ≤ 10 ∧ stock.pbr ≤ 1.5 then 2.0
  else if stock.per ≤ 15 ∧ stock.pbr ≤ 2.0 then 1.5
  else if stock.per ≤ 20 ∧ stock.pbr ≤ 2.5 then 1.0
  else if stock.per ≤ 25 ∧ stock.pbr ≤ 3.0 then 0.5
  else 0

/-- safety_score local of GrahamStrategy.calculate_score (app22.py):
liquidity tier plus profitability bonus. -/
def GrahamStrategy.safety_score (stock : Stock) : ℚ :=
  (if stock.current_ratio ≥ 2.0 ∧ stock.debt_ratio ≤ 30 then 1.5
   else if stock.current_ratio ≥ 1.5 ∧ stock.debt_ratio ≤ 50 then 1.0
   else if stock.current_ratio ≥ 1.2 then 0.5 else 0)
  + (if stock.roe ≥ 8 ∧ stock.profit_growth ≥ 0 then 1.0
     else if stock.roe ≥ 5 then 0.5 else 0)

/-- dividend_score local of GrahamStrategy.calculate_score (app22.py). -/
def GrahamStrategy.dividend_score (stock : Stock) : ℚ :=
  if stock.dividend_yield ≥ 3.0 then 1.0
  else if stock.dividend_yield ≥ 2.0 then 0.7
  else if stock.dividend_yield ≥ 1.0 then 0.3
  else 0

/-- GrahamStrategy.calculate_score of app22.py. -/
def GrahamStrategy.calculate_score (stock : Stock) : InvestmentScore :=
  let value_score := GrahamStrategy.value_score stock
  let safety_score := GrahamStrategy.safety_score stock
  let dividend_score := GrahamStrategy.dividend_score stock
  let total_score := value_score + safety_score + dividend_score
  let grade := get_grade total_score
  let recommendation := get_recommendation grade stock
  { total_score := total_score
    grade := grade
    recommendation := recommendation
    details := [("value", value_score), ("safety", safety_score),
                ("dividend", dividend_score)] }

/-- innovation_score local of FisherStrategy.calculate_score (app22.py):
margin tier plus revenue-growth tier. -/
def FisherStrategy.innovation_score (stock : Stock) : ℚ :=
  (if stock.operating_margin ≥ 20 ∧ stock.profit_margin ≥ 15 then 1.5
   else if stock.operating_margin ≥ 15 ∧ stock.profit_margin ≥ 10 then 1.0
   else if stock.operating_margin ≥ 10 then 0.5 else 0)
  + (if stock.revenue_growth ≥ 15 then 1.0
     else if stock.revenue_growth ≥ 10 then 0.7
     else if stock.revenue_growth ≥ 5 then 0.3 else 0)

/-- growth_score local of FisherStrategy.calculate_score (app22.py). -/
def FisherStrategy.growth_score (stock : Stock) : ℚ :=
  if stock.profit_growth ≥ 20 ∧ stock.eps_growth ≥ 15 then 1.5
  else if stock.profit_growth ≥ 15 ∧ stock.eps_growth ≥ 10 then 1.2
  else if stock.profit_growth ≥ 10 then 0.8
  else if stock.profit_growth ≥ 5 then 0.4
  else 0

/-- management_score local of FisherStrategy.calculate_score (app22.py). -/
def FisherStrategy.management_score (stock : Stock) : ℚ :=
  if stock.roe ≥ 20 ∧ stock.roa ≥ 15 then 1.2
  else if stock.roe ≥ 15 ∧ stock.roa ≥ 10 then 1.0
  else if stock.roe ≥ 12 ∧ stock.roa ≥ 7 then 0.7
  else if stock.roe ≥ 10 then 0.3
  else 0

/-- FisherStrategy.calculate_score of app22.py. -/
def FisherStrategy.calculate_score (stock : Stock) : InvestmentScore :=
  let innovation_score := FisherStrategy.innovation_score stock
  let growth_score := FisherStrategy.growth_score stock
  let management_score := FisherStrategy.management_score stock
  let total_score := innovation_score + growth_score + management_score
  let grade := get_grade total_score
  let recommendation := get_recommendation grade stock
  { total_score := total_score
    grade := grade
    recommendation := recommendation
    details := [("innovation", innovation_score), ("growth", growth_score),
                ("management", management_score)] }

/-- simplicity_score local of MungerStrategy.calculate_score (app22.py):
(roe_trend + margin_stability) * 1.0 with binary indicators. -/
def MungerStrategy.simplicity_score (stock : Stock) : ℚ :=
  let roe_trend : ℚ := if stock.roe ≥ 12 then 1 else 0
  let margin_stability : ℚ := if stock.operating_margin ≥ 15 then 1 else 0
  (roe_trend + margin_stability) * 1.0

/-- competitive_score local of MungerStrategy.calculate_score (app22.py). -/
def MungerStrategy.competitive_score (stock : Stock) : ℚ :=
  (if stock.roe ≥ 20 ∧ stock.operating_margin ≥ 20 then 1.5
   else if stock.roe ≥ 15 ∧ stock.operating_margin ≥ 15 then 1.2
   else if stock.roe ≥ 12 ∧ stock.operating_margin ≥ 10 then 0.8 else 0)
  + (if stock.revenue_growth ≥ 8 ∧ stock.profit_growth ≥ 8 then 1.0
     else if stock.revenue_growth ≥ 5 then 0.5 else 0)

/-- rational_score local of MungerStrategy.calculate_score (app22.py). -/
def MungerStrategy.rational_score (stock : Stock) : ℚ :=
  if stock.per ≤ 12 ∧ stock.pbr ≤ 2.0 then 1.5
  else if stock.per ≤ 18 ∧ stock.pbr ≤ 3.0 then 1.0
  else if stock.per ≤ 25 then 0.5
  else 0

/-- MungerStrategy.calculate_score of app22.py. -/
def MungerStrategy.calculate_score (stock : Stock) : InvestmentScore :=
  let simplicity_score := MungerStrategy.simplicity_score stock
  let competitive_score := MungerStrategy.competitive_score stock
  let rational_score := MungerStrategy.rational_score stock
  let total_score := simplicity_score + competitive_score + rational_score
  let grade := get_grade total_score
  let recommendation := get_recommendation grade stock
  { total_score := total_score
    grade := grade
    recommendation := recommendation
    details := [("simplicity", simplicity_score), ("competitive", competitive_score),
                ("rational", rational_score)] }

/-- roc_score local of GreenblattStrategy.calculate_score (app22.py). -/
def GreenblattStrategy.roc_score (stock : Stock) : ℚ :=
  if stock.roa ≥ 20 then 2.5
  else if stock.roa ≥ 15 then 2.0
  else if stock.roa ≥ 12 then 1.5
  else if stock.roa ≥ 10 then 1.0
  else if stock.roa ≥ 8 then 0.5
  else 0

/-- earnings_yield_score local of GreenblattStrategy.calculate_score
(app22.py): earnings_yield = 100/per when per is positive, else 0. -/
def GreenblattStrategy.earnings_yield_score (stock : Stock) : ℚ :=
  let earnings_yield : ℚ := if stock.per > 0 then 100 / stock.per else 0
  if earnings_yield ≥ 10 then 2.5
  else if earnings_yield ≥ 6.67 then 2.0
  else if earnings_yield ≥ 5 then 1.5
  else if earnings_yield ≥ 4 then 1.0
  else if earnings_yield ≥ 3.33 then 0.5
  else 0

/-- GreenblattStrategy.calculate_score of app22.py. -/
def GreenblattStrategy.calculate_score (stock : Stock) : InvestmentScore :=
  let roc_score := GreenblattStrategy.roc_score stock
  let earnings_yield_score := GreenblattStrategy.earnings_yield_score stock
  let total_score := roc_score + earnings_yield_score
  let grade := get_grade total_score
  let recommendation := get_recommendation grade stock
  { total_score := total_score
    grade := grade
    recommendation := recommendation
    details := [("roc", roc_score), ("earnings_yield", earnings_yield_score)] }

end App22

namespace App

/- app.py declares a Stock dataclass and an InvestmentScore dataclass that are
field-for-field identical to those of app22.py, and its get_grade and
get_recommendation methods are line-for-line identical to app22.py lines
94-118; the embedding therefore reuses App22.Stock, InvestmentScore,
App22.get_grade and App22.get_recommendation for app.py.  Only the six
calculate_score methods differ and are embedded below. -/

/-- BuffettStrategy.calculate_score of app.py (lines 235-275): same moat as
app22.py, but management and health bottom out at 1.0 instead of 0.5. -/
def BuffettStrategy.calculate_score (stock : App22.Stock) : InvestmentScore :=
  let moat_score : ℚ :=
    (if stock.roe ≥ 15 then 1.5 else if stock.roe ≥ 10 then 1.0
     else if stock.roe ≥ 8 then 0.5 else 0)
    + (if stock.revenue_growth ≥ 10 then 1.0
       else if stock.revenue_growth ≥ 5 then 0.5 else 0)
    + (if stock.profit_growth ≥ 10 then 1.0
       else if stock.profit_growth ≥ 5 then 0.5 else 0)
  let management_score : ℚ :=
    if stock.roe ≥ 15 ∧ stock.equity_ratio ≥ 70 ∧ stock.debt_ratio ≤ 30 then 2.0
    else if stock.roe ≥ 10 ∧ stock.equity_ratio ≥ 60 ∧ stock.debt_ratio ≤ 40 then 1.5
    else 1.0
  let health_score : ℚ :=
    if stock.equity_ratio ≥ 80 ∧ stock.debt_ratio ≤ 20 ∧ stock.current_ratio ≥ 2.0 then 2.0
    else if stock.equity_ratio ≥ 70 ∧ stock.debt_ratio ≤ 30 ∧ stock.current_ratio ≥ 1.5 then 1.5
    else 1.0
  let total_score := moat_score + management_score + health_score
  let grade := App22.get_grade total_score
  let recommendation := App22.get_recommendation grade stock
  { total_score := total_score
    grade := grade
    recommendation := recommendation
    details := [("moat", moat_score), ("management", management_score),
                ("health", health_score)] }

/-- LynchStrategy.calculate_score of app.py (lines 277-315): the PEG tier
chain has no 0.5 tier, and the quality tier roe ≥ 10 has no margin guard. -/
def LynchStrategy.calculate_score (stock : App22.Stock) : InvestmentScore :=
  let peg_ratio : ℚ :=
    if stock.per > 0 then stock.per / max stock.profit_growth 1 else 0
  let growth_score : ℚ :=
    (if peg_ratio ≤ 0.5 then 2.0 else if peg_ratio ≤ 1.0 then 1.5
     else if peg_ratio ≤ 1.5 then 1.0 else 0)
    + (if stock.revenue_growth ≥ 20 then 1.5 else if stock.revenue_growth ≥ 15 then 1.0
       else if stock.revenue_growth ≥ 10 then 0.5 else 0)
  let valuation_score : ℚ :=
    if stock.per ≤ 15 ∧ stock.pbr ≤ 3 then 1.5
    else if stock.per ≤ 25 ∧ stock.pbr ≤ 5 then 1.0
    else if stock.per ≤ 35 then 0.5
    else 0
  let quality_score : ℚ :=
    if stock.roe ≥ 15 ∧ stock.operating_margin ≥ 10 then 1.0
    else if stock.roe ≥ 10 then 0.7
    else 0
  let total_score := growth_score + valuation_score + quality_score
  let grade := App22.get_grade total_score
  let recommendation := App22.get_recommendation grade stock
  { total_score := total_score
    grade := grade
    recommendation := recommendation
    details := [("growth", growth_score), ("valuation", valuation_score),
                ("quality", quality_score)] }

/-- GrahamStrategy.calculate_score of app.py (lines 317-331). -/
def GrahamStrategy.calculate_score (stock : App22.Stock) : InvestmentScore :=
  let value_score : ℚ := if stock.per ≤ 15 ∧ stock.pbr ≤ 2.5 then 2.0 else 1.0
  let safety_score : ℚ :=
    if stock.current_ratio ≥ 2.0 ∧ stock.debt_ratio ≤ 30 then 2.0 else 1.0
  let dividend_score : ℚ := if stock.dividend_yield ≥ 2.0 then 1.0 else 0.5
  let total_score := value_score + safety_score + dividend_score
  { total_score := total_score
    grade := App22.get_grade total_score
    recommendation := App22.get_recommendation (App22.get_grade total_score) stock
    details := [("value", value_score), ("safety", safety_score),
                ("dividend", dividend_score)] }

/-- FisherStrategy.calculate_score of app.py (lines 333-350). -/
def FisherStrategy.calculate_score (stock : App22.Stock) : InvestmentScore :=
  let innovation_score : ℚ := if stock.operating_margin ≥ 15 then 2.0 else 1.0
  let growth_score : ℚ := if stock.profit_growth ≥ 15 then 2.0 else 1.0
  let management_score : ℚ := if stock.roe ≥ 15 then 1.0 else 0.5
  let total_score := innovation_score + growth_score + management_score
  { total_score := total_score
    grade := App22.get_grade total_score
    recommendation := App22.get_recommendation (App22.get_grade total_score) stock
    details := [("innovation", innovation_score), ("growth", growth_score),
                ("management", management_score)] }

/-- MungerStrategy.calculate_score of app.py (lines 352-367). -/
def MungerStrategy.calculate_score (stock : App22.Stock) : InvestmentScore :=
  let simplicity_score : ℚ := if stock.roe ≥ 12 then 2.0 else 1.0
  let competitive_score : ℚ :=
    if stock.roe ≥ 20 ∧ stock.operating_margin ≥ 20 then 2.0 else 1.0
  let rational_score : ℚ :=
    if stock.per ≤ 18 ∧ stock.pbr ≤ 3.0 then 1.5 else 1.0
  let total_score := simplicity_score + competitive_score + rational_score
  { total_score := total_score
    grade := App22.get_grade total_score
    recommendation := App22.get_recommendation (App22.get_grade total_score) stock
    details := [("simplicity", simplicity_score), ("competitive", competitive_score),
                ("rational", rational_score)] }

/-- GreenblattStrategy.calculate_score of app.py (lines 369-384). -/
def GreenblattStrategy.calculate_score (stock : App22.Stock) : InvestmentScore :=
  let roc_score : ℚ :=
    if stock.roa ≥ 15 then 2.5 else if stock.roa ≥ 10 then 1.5 else 1.0
  let earnings_yield : ℚ := if stock.per > 0 then 100 / stock.per else 0
  let ey_score : ℚ :=
    if earnings_yield ≥ 10 then 2.5 else if earnings_yield ≥ 6.67 then 1.5 else 1.0
  let total_score := roc_score + ey_score
  { total_score := total_score
    grade := App22.get_grade total_score
    recommendation := App22.get_recommendation (App22.get_grade total_score) stock
    details := [("roc", roc_score), ("earnings_yield", ey_score)] }

end App

namespace InvStrat

/-- Stock dataclass of investment-strategy.py (all numeric fields default
to 0 and the string fields to the empty string in the source). -/
structure Stock where
  code : String
  name : String
  current_price : ℚ
  market_cap : ℚ := 0
  per : ℚ := 0
  pbr : ℚ := 0
  roe : ℚ := 0
  roa : ℚ := 0
  debt_ratio : ℚ := 0
  current_ratio : ℚ := 0
  operating_margin : ℚ := 0
  net_margin : ℚ := 0
  revenue_growth : ℚ := 0
  profit_growth : ℚ := 0
  dividend_yield : ℚ := 0
  foreign_rate : ℚ := 0
  sector : String := ""
  last_update : String := ""
  deriving DecidableEq, Repr

/-- InvestmentStrategy.get_grade of investment-strategy.py: thresholds
8.0/7.0/6.0/5.0. -/
def get_grade (score : ℚ) : Grade :=
  if score ≥ 8.0 then Grade.S
  else if score ≥ 7.0 then Grade.A
  else if score ≥ 6.0 then Grade.B
  else if score ≥ 5.0 then Grade.C
  else Grade.D

/-- InvestmentStrategy.get_recommendation of investment-strategy.py. -/
def get_recommendation (grade : Grade) (stock : Stock) : Rec :=
  if grade = Grade.S then
    (if stock.per > 0 ∧ stock.per ≤ 15 ∧ stock.pbr ≤ 2 then Rec.strongBuy
     else Rec.buy)
  else if grade = Grade.A then
    (if stock.per > 0 ∧ stock.per ≤ 20 ∧ stock.pbr ≤ 3 then Rec.buy
     else Rec.hold)
  else if grade = Grade.B then Rec.hold
  else if grade = Grade.C then Rec.watch
  else Rec.avoid

/-- Python round(x, 2) as applied to the total scores of
investment-strategy.py.  Every component score in that file is a multiple
of 1/2, so every reachable total is a multiple of 1/2 and rounding to two
decimal places is the identity there; the definition below (round half
up at the second decimal) agrees with Python on all reachable inputs. -/
def round2 (x : ℚ) : ℚ := ((round (x * 100) : ℤ) : ℚ) / 100

/-- The moat component of BuffettStrategy.calculate_score
(investment-strategy.py): roe tier. -/
def BuffettStrategy.moat (stock : Stock) : ℚ :=
  if stock.roe ≥ 20 then 3.0
  else if stock.roe ≥ 15 then 2.5
  else if stock.roe ≥ 10 then 2.0
  else if stock.roe ≥ 8 then 1.5
  else 1.0

/-- The financial_health component of BuffettStrategy.calculate_score
(investment-strategy.py): debt_ratio tier. -/
def BuffettStrategy.financial_health (stock : Stock) : ℚ :=
  if stock.debt_ratio ≤ 30 then 2.0
  else if stock.debt_ratio ≤ 50 then 1.5
  else if stock.debt_ratio ≤ 70 then 1.0
  else 0.5

/-- The profitability component of BuffettStrategy.calculate_score
(investment-strategy.py): operating_margin tier. -/
def BuffettStrategy.profitability (stock : Stock) : ℚ :=
  if stock.operating_margin ≥ 20 then 2.0
  else if stock.operating_margin ≥ 15 then 1.5
  else if stock.operating_margin ≥ 10 then 1.0
  else 0.5

/-- The valuation component of BuffettStrategy.calculate_score
(investment-strategy.py): per tier (guarded by per > 0) plus pbr tier
(guarded by pbr > 0). -/
def BuffettStrategy.valuation (stock : Stock) : ℚ :=
  (if stock.per > 0 then
     (if stock.per ≤ 10 then 1.5 else if stock.per ≤ 15 then 1.0
      else if stock.per ≤ 20 then 0.5 else 0)
   else 0)
  + (if stock.pbr > 0 then
       (if stock.pbr ≤ 1.0 then 1.5 else if stock.pbr ≤ 1.5 then 1.0
        else if stock.pbr ≤ 2.0 then 0.5 else 0)
     else 0)

/-- BuffettStrategy.calculate_score of investment-strategy.py. -/
def BuffettStrategy.calculate_score (stock : Stock) : InvestmentScore :=
  let moat := BuffettStrategy.moat stock
  let financial_health := BuffettStrategy.financial_health stock
  let profitability := BuffettStrategy.profitability stock
  let valuation := BuffettStrategy.valuation stock
  let total_score := moat + financial_health + profitability + valuation
  let grade := get_grade total_score
  let recommendation := get_recommendation grade stock
  { total_score := round2 total_score
    grade := grade
    recommendation := recommendation
    details := [("moat", moat), ("financial_health", financial_health),
                ("profitability", profitability), ("valuation", valuation)] }

/-- The peg component of LynchStrategy.calculate_score
(investment-strategy.py): per / profit_growth when both are positive,
else the fixed fallback score 1.0. -/
def LynchStrategy.peg (stock : Stock) : ℚ :=
  if stock.per > 0 ∧ stock.profit_growth > 0 then
    (let peg := stock.per / stock.profit_growth
     if peg ≤ 0.5 then 4.0 else if peg ≤ 1.0 then 3.0
     else if peg ≤ 1.5 then 2.0 else if peg ≤ 2.0 then 1.0 else 0.5)
  else 1.0

/-- The growth component of LynchStrategy.calculate_score
(investment-strategy.py): tier on the average of revenue_growth and
profit_growth. -/
def LynchStrategy.growth (stock : Stock) : ℚ :=
  let growth_avg := (stock.revenue_growth + stock.profit_growth) / 2
  if growth_avg ≥ 20 then 3.0
  else if growth_avg ≥ 15 then 2.5
  else if growth_avg ≥ 10 then 2.0
  else if growth_avg ≥ 5 then 1.5
  else 1.0

/-- The profitability component of LynchStrategy.calculate_score
(investment-strategy.py): roe tier. -/
def LynchStrategy.profitability (stock : Stock) : ℚ :=
  if stock.roe ≥ 20 then 3.0
  else if stock.roe ≥ 15 then 2.5
  else if stock.roe ≥ 10 then 2.0
  else 1.0

/-- LynchStrategy.calculate_score of investment-strategy.py. -/
def LynchStrategy.calculate_score (stock : Stock) : InvestmentScore :=
  let peg := LynchStrategy.peg stock
  let growth := LynchStrategy.growth stock
  let profitability := LynchStrategy.profitability stock
  let total_score := peg + growth + profitability
  let grade := get_grade total_score
  let recommendation := get_recommendation grade stock
  { total_score := round2 total_score
    grade := grade
    recommendation := recommendation
    details := [("peg", peg), ("growth", growth),
                ("profitability", profitability)] }

/-- The valuation component of GrahamStrategy.calculate_score
(investment-strategy.py). -/
def GrahamStrategy.valuation (stock : Stock) : ℚ :=
  (if stock.per > 0 then
     (if stock.per ≤ 10 then 2.0 else if stock.per ≤ 15 then 1.5
      else if stock.per ≤ 20 then 1.0 else 0.5)
   else 0)
  + (if stock.pbr > 0 then
       (if stock.pbr ≤ 1.0 then 2.0 else if stock.pbr ≤ 1.5 then 1.5
        else if stock.pbr ≤ 2.0 then 1.0 else 0.5)
     else 0)

/-- The financial_stability component of GrahamStrategy.calculate_score
(investment-strategy.py); note current_ratio is compared against
percentage thresholds 200/150/100 in this file. -/
def GrahamStrategy.financial_stability (stock : Stock) : ℚ :=
  if stock.current_ratio ≥ 200 then 3.0
  else if stock.current_ratio ≥ 150 then 2.5
  else if stock.current_ratio ≥ 100 then 2.0
  else 1.0

/-- The profitability component of GrahamStrategy.calculate_score
(investment-strategy.py). -/
def GrahamStrategy.profitability (stock : Stock) : ℚ :=
  if stock.roe ≥ 10 ∧ stock.net_margin ≥ 5 then 3.0
  else if stock.roe ≥ 8 ∧ stock.net_margin ≥ 3 then 2.0
  else 1.0

/-- GrahamStrategy.calculate_score of investment-strategy.py. -/
def GrahamStrategy.calculate_score (stock : Stock) : InvestmentScore :=
  let valuation := GrahamStrategy.valuation stock
  let financial_stability := GrahamStrategy.financial_stability stock
  let profitability := GrahamStrategy.profitability stock
  let total_score := valuation + financial_stability + profitability
  let grade := get_grade total_score
  let recommendation := get_recommendation grade stock
  { total_score := round2 total_score
    grade := grade
    recommendation := recommendation
    details := [("valuation", valuation), ("financial_stability", financial_stability),
                ("profitability", profitability)] }

/-- The innovation component of FisherStrategy.calculate_score
(investment-strategy.py). -/
def FisherStrategy.innovation (stock : Stock) : ℚ :=
  if stock.operating_margin ≥ 25 then 3.0
  else if stock.operating_margin ≥ 20 then 2.5
  else if stock.operating_margin ≥ 15 then 2.0
  else 1.0

/-- The growth component of FisherStrategy.calculate_score
(investment-strategy.py): revenue_growth tier plus profit_growth tier. -/
def FisherStrategy.growth (stock : Stock) : ℚ :=
  (if stock.revenue_growth ≥ 15 then 2.0
   else if stock.revenue_growth ≥ 10 then 1.5 else 1.0)
  + (if stock.profit_growth ≥ 15 then 2.0
     else if stock.profit_growth ≥ 10 then 1.5 else 1.0)

/-- The management component of FisherStrategy.calculate_score
(investment-strategy.py). -/
def FisherStrategy.management (stock : Stock) : ℚ :=
  if stock.roe ≥ 20 then 3.0
  else if stock.roe ≥ 15 then 2.5
  else if stock.roe ≥ 12 then 2.0
  else 1.0

/-- FisherStrategy.calculate_score of investment-strategy.py. -/
def FisherStrategy.calculate_score (stock : Stock) : InvestmentScore :=
  let innovation := FisherStrategy.innovation stock
  let growth := FisherStrategy.growth stock
  let management := FisherStrategy.management stock
  let total_score := innovation + growth + management
  let grade := get_grade total_score
  let recommendation := get_recommendation grade stock
  { total_score := round2 total_score
    grade := grade
    recommendation := recommendation
    details := [("innovation", innovation), ("growth", growth),
                ("management", management)] }

/-- The business_quality component of MungerStrategy.calculate_score
(investment-strategy.py). -/
def MungerStrategy.business_quality (stock : Stock) : ℚ :=
  (if stock.roe ≥ 15 then 2.0 else if stock.roe ≥ 12 then 1.5 else 1.0)
  + (if stock.operating_margin ≥ 15 then 2.0
     else if stock.operating_margin ≥ 10 then 1.5 else 1.0)

/-- The competitive_advantage component of MungerStrategy.calculate_score
(investment-strategy.py): market_cap tier. -/
def MungerStrategy.competitive_advantage (stock : Stock) : ℚ :=
  if stock.market_cap ≥ 10000000 then 3.0
  else if stock.market_cap ≥ 5000000 then 2.5
  else if stock.market_cap ≥ 1000000 then 2.0
  else 1.0

/-- The valuation component of MungerStrategy.calculate_score
(investment-strategy.py). -/
def MungerStrategy.valuation (stock : Stock) : ℚ :=
  if stock.per > 0 ∧ stock.per ≤ 15 ∧ stock.pbr ≤ 2 then 3.0
  else if stock.per > 0 ∧ stock.per ≤ 20 ∧ stock.pbr ≤ 3 then 2.0
  else 1.0

/-- MungerStrategy.calculate_score of investment-strategy.py. -/
def MungerStrategy.calculate_score (stock : Stock) : InvestmentScore :=
  let business_quality := MungerStrategy.business_quality stock
  let competitive_advantage := MungerStrategy.competitive_advantage stock
  let valuation := MungerStrategy.valuation stock
  let total_score := business_quality + competitive_advantage + valuation
  let grade := get_grade total_score
  let recommendation := get_recommendation grade stock
  { total_score := round2 total_score
    grade := grade
    recommendation := recommendation
    details := [("business_quality", business_quality),
                ("competitive_advantage", competitive_advantage),
                ("valuation", valuation)] }

/-- The capital_return component of GreenblattStrategy.calculate_score
(investment-strategy.py): roa tier. -/
def GreenblattStrategy.capital_return (stock : Stock) : ℚ :=
  if stock.roa ≥ 20 then 5.0
  else if stock.roa ≥ 15 then 4.0
  else if stock.roa ≥ 10 then 3.0
  else if stock.roa ≥ 7 then 2.0
  else 1.0

/-- The earnings_yield component of GreenblattStrategy.calculate_score
(investment-strategy.py): tier on 100/per when per is positive, else the
fixed fallback score 1.0. -/
def GreenblattStrategy.earnings_yield (stock : Stock) : ℚ :=
  if stock.per > 0 then
    (let earnings_yield := (100 : ℚ) / stock.per
     if earnings_yield ≥ 15 then 5.0 else if earnings_yield ≥ 10 then 4.0
     else if earnings_yield ≥ 7 then 3.0 else if earnings_yield ≥ 5 then 2.0
     else 1.0)
  else 1.0

/-- GreenblattStrategy.calculate_score of investment-strategy.py. -/
def GreenblattStrategy.calculate_score (stock : Stock) : InvestmentScore :=
  let capital_return := GreenblattStrategy.capital_return stock
  let earnings_yield := GreenblattStrategy.earnings_yield stock
  let total_score := capital_return + earnings_yield
  let grade := get_grade total_score
  let recommendation := get_recommendation grade stock
  { total_score := round2 total_score
    grade := grade
    recommendation := recommendation
    details := [("capital_return", capital_return),
                ("earnings_yield", earnings_yield)] }

end InvStrat

namespace App22

/-- The six keys of the INVESTMENT_STRATEGIES dict of app22.py (the same
dict appears in app.py). -/
inductive StrategyTag
  | buffett
  | lynch
  | graham
  | fisher
  | munger
  | greenblatt
  deriving DecidableEq, Repr

/-- strategy.calculate_score dispatch for the app22.py strategy
instances. -/
def StrategyTag.calculate_score : StrategyTag → Stock → InvestmentScore
  | .buffett => BuffettStrategy.calculate_score
  | .lynch => LynchStrategy.calculate_score
  | .graham => GrahamStrategy.calculate_score
  | .fisher => FisherStrategy.calculate_score
  | .munger => MungerStrategy.calculate_score
  | .greenblatt => GreenblattStrategy.calculate_score

/-- INVESTMENT_STRATEGIES.get(style, INVESTMENT_STRATEGIES\x7b'buffett'\x7d):
dictionary lookup whose default for any unknown key is the Buffett
strategy (app22.py line 815, app.py line 1109). -/
def INVESTMENT_STRATEGIES_get (style : String) : StrategyTag :=
  if style = "buffett" then StrategyTag.buffett
  else if style = "lynch" then StrategyTag.lynch
  else if style = "graham" then StrategyTag.graham
  else if style = "fisher" then StrategyTag.fisher
  else if style = "munger" then StrategyTag.munger
  else if style = "greenblatt" then StrategyTag.greenblatt
  else StrategyTag.buffett

/-- The descending key order used by
analyzed_stocks.sort(key=total_score, reverse=True): a comes no later
than b when the total score of b is at most that of a. -/
def scoreGE (a b : Stock × InvestmentScore) : Prop :=
  b.2.total_score ≤ a.2.total_score

instance : DecidableRel scoreGE :=
  fun a b => inferInstanceAs (Decidable (b.2.total_score ≤ a.2.total_score))

instance : IsTotal (Stock × InvestmentScore) scoreGE :=
  ⟨fun a b => le_total b.2.total_score a.2.total_score⟩

instance : IsTrans (Stock × InvestmentScore) scoreGE :=
  ⟨fun _ _ _ hab hbc => le_trans hbc hab⟩

/-- The analyzed_stocks list built by get_stocks before sorting: each
record paired with its score under the selected strategy.  (The
per-record try/except of the source never fires: calculate_score is
total on numeric inputs.) -/
def analyzed_stocks (style : String) (stocks : List Stock) :
    List (Stock × InvestmentScore) :=
  stocks.map (fun s => (s, (INVESTMENT_STRATEGIES_get style).calculate_score s))

/-- Python list.sort(key=..., reverse=True), a stable sort producing
descending total scores, modelled as stable insertion sort under
scoreGE (two stable sorts of the same list under the same total
preorder agree element for element). -/
def sort_by_score_desc (l : List (Stock × InvestmentScore)) :
    List (Stock × InvestmentScore) :=
  l.insertionSort scoreGE

/-- The ranked list of get_stocks: scored records sorted by descending
total score. -/
def ranked (style : String) (stocks : List Stock) :
    List (Stock × InvestmentScore) :=
  sort_by_score_desc (analyzed_stocks style stocks)

/-- The ranking core of get_stocks (app22.py lines 815-836; the same
lines appear in app.py 1108-1129): strategy lookup with Buffett
default, scoring, stable descending sort, then truncation to the first
limit entries when limit > 0. -/
def get_stocks (style : String) (stocks : List Stock) (limit : Int) :
    List (Stock × InvestmentScore) :=
  let r := ranked style stocks
  if limit > 0 then r.take limit.toNat else r

end App22

/-- An App22.Stock (equally an app.py Stock) with every numeric field 0
and every string empty: the base record for concrete test inputs, varied
by record update below.  Field order: id, name, code, market, sector,
current_price, currency, debt_ratio, current_ratio, equity_ratio,
credit_rating, roe, roa, operating_margin, profit_margin,
revenue_growth, profit_growth, eps_growth, per, pbr, dividend_yield,
last_update. -/
def baseStock : App22.Stock :=
  ⟨0, "", "", "", "", 0, "", 0, 0, 0, "", 0, 0, 0, 0, 0, 0, 0, 0, 0, 0, ""⟩

/-- An InvStrat.Stock with every numeric field 0 and every string empty. -/
def invBaseStock : InvStrat.Stock :=
  { code := "", name := "", current_price := 0 }

/-- The Buffett example record of the specification: roe=18.5,
revenueGrowth=8.5, profitGrowth=12.3, equityRatio=85.2, debtRatio=15.2,
currentRatio=2.1, per=12.5, pbr=1.2. -/
def exampleStock : App22.Stock :=
  { baseStock with
      roe := 18.5, revenue_growth := 8.5, profit_growth := 12.3,
      equity_ratio := 85.2, debt_ratio := 15.2, current_ratio := 2.1,
      per := 12.5, pbr := 1.2 }

/-- A loss-making record: per = 0 (the sentinel), profit_growth = -50,
all other numeric fields 0. -/
def lossStock : App22.Stock :=
  { baseStock with per := 0, profit_growth := -50 }

/-- A record with maximal moat inputs at the tier edges: roe = 15,
revenue_growth = 10, profit_growth = 10. -/
def moatMaxStock : App22.Stock :=
  { baseStock with roe := 15, revenue_growth := 10, profit_growth := 10 }

/-- A record with strong Buffett fundamentals but per = 0 (the
loss-making sentinel) and pbr = 1. -/
def perZeroStrongStock : App22.Stock :=
  { baseStock with
      roe := 20, revenue_growth := 15, profit_growth := 15,
      equity_ratio := 85, debt_ratio := 15, current_ratio := 2.5,
      per := 0, pbr := 1 }

/-- A normalized metrics tuple used to feed the same numbers to all
three implementation families.  profit_margin doubles as the net_margin
of investment-strategy.py, whose Stock lacks equity_ratio, eps_growth
and profit_margin; market_cap exists only there. -/
structure Metrics where
  debt_ratio : ℚ
  current_ratio : ℚ
  equity_ratio : ℚ
  roe : ℚ
  roa : ℚ
  operating_margin : ℚ
  profit_margin : ℚ
  revenue_growth : ℚ
  profit_growth : ℚ
  eps_growth : ℚ
  per : ℚ
  pbr : ℚ
  dividend_yield : ℚ
  market_cap : ℚ
  deriving DecidableEq, Repr

/-- Embed a metrics tuple into the Stock type shared by app.py and
app22.py. -/
def Metrics.toApp22 (m : Metrics) : App22.Stock :=
  { baseStock with
      debt_ratio := m.debt_ratio, current_ratio := m.current_ratio,
      equity_ratio := m.equity_ratio, roe := m.roe, roa := m.roa,
      operating_margin := m.operating_margin, profit_margin := m.profit_margin,
      revenue_growth := m.revenue_growth, profit_growth := m.profit_growth,
      eps_growth := m.eps_growth, per := m.per, pbr := m.pbr,
      dividend_yield := m.dividend_yield }

/-- Embed a metrics tuple into the Stock type of
investment-strategy.py. -/
def Metrics.toInvStrat (m : Metrics) : InvStrat.Stock :=
  { invBaseStock with
      market_cap := m.market_cap, per := m.per, pbr := m.pbr,
      roe := m.roe, roa := m.roa, debt_ratio := m.debt_ratio,
      current_ratio := m.current_ratio,
      operating_margin := m.operating_margin, net_margin := m.profit_margin,
      revenue_growth := m.revenue_growth, profit_growth := m.profit_growth,
      dividend_yield := m.dividend_yield }

/-- The all-zero metrics tuple. -/
def zeroMetrics : Metrics := ⟨0, 0, 0, 0, 0, 0, 0, 0, 0, 0, 0, 0, 0, 0⟩

/-- Metrics separating the three Lynch implementations: per = 1.8,
profit_growth = 1, roe = 10, everything else 0. -/
def lynchSepMetrics : Metrics :=
  { zeroMetrics with per := 1.8, profit_growth := 1, roe := 10 }

/-- Metrics separating the three Graham implementations:
dividend_yield = 1, everything else 0. -/
def grahamSepMetrics : Metrics := { zeroMetrics with dividend_yield := 1 }

/-- Metrics separating the three Greenblatt implementations: roa = 7,
everything else 0. -/
def greenblattSepMetrics : Metrics := { zeroMetrics with roa := 7 }

section SortLemmas

variable {α : Type} (r : α → α → Prop) [DecidableRel r] (p : α → Bool)

/-- Inserting an element rejected by the filter does not change the
filtered list. -/
theorem filter_orderedInsert_of_neg (x : α) (l : List α) (hx : p x = false) :
    (l.orderedInsert r x).filter p = l.filter p := by
  induction l with
  | nil => simp [List.orderedInsert, hx]
  | cons y ys ih =>
    by_cases hr : r x y
    · simp [List.orderedInsert, hr, List.filter_cons, hx]
    · simp only [List.orderedInsert, if_neg hr, List.filter_cons]
      cases hpy : p y <;> simp [hpy, ih]

/-- Inserting an element accepted by the filter, when every element the
insertion skips over is rejected by the filter, prepends it to the
filtered list. -/
theorem filter_orderedInsert_of_pos (x : α) (l : List α) (hx : p x = true)
    (h : ∀ y, ¬ r x y → p y = false) :
    (l.orderedInsert r x).filter p = x :: l.filter p := by
  induction l with
  | nil => simp [List.orderedInsert, hx]
  | cons y ys ih =>
    by_cases hr : r x y
    · simp [List.orderedInsert, hr, List.filter_cons, hx]
    · have hy := h y hr
      simp only [List.orderedInsert, if_neg hr, List.filter_cons, hy]
      simpa [List.filter_cons, hy] using ih

/-- Stability of insertion sort: a filter that no element can pass after
an element it fails is unchanged by sorting.  Applied below with the
filter "total score equals k" and the descending score order. -/
theorem filter_insertionSort
    (hp : ∀ x y, p x = true → ¬ r x y → p y = false) :
    ∀ l : List α, (l.insertionSort r).filter p = l.filter p := by
  intro l
  induction l with
  | nil => rfl
  | cons x xs ih =>
    simp only [List.insertionSort]
    cases hx : p x
    · rw [filter_orderedInsert_of_neg r p x _ hx, ih, List.filter_cons, hx]
      simp
    · rw [filter_orderedInsert_of_pos r p x _ hx (fun y => hp x y hx), ih,
        List.filter_cons, hx]
      simp

end SortLemmas

/-- C1: the specification asks that per = 0 (the loss-making sentinel)
force the Lynch PEG component to the worst tier.  The code instead sets
peg_ratio to 0 when per = 0, and 0 satisfies the first tier test
peg_ratio ≤ 0.5, so the PEG component contributes 2.0 — the HIGHEST
tier — in both app22.py and app.py.  On the loss-making record
(per = 0, profit_growth = -50, everything else 0) the revenue bonus is
0, so growth_score equals the PEG contribution 2.0, and the full
scoring runs to a deterministic total of 3.5 without error. -/
theorem lynch_per_zero_gets_best_peg_tier :
    lossStock.per = 0
    ∧ App22.LynchStrategy.growth_score lossStock = 2
    ∧ (App22.LynchStrategy.calculate_score lossStock).total_score = 3.5
    ∧ (App.LynchStrategy.calculate_score lossStock).total_score = 3.5 := by
  refine ⟨rfl, ?_, ?_, ?_⟩ <;>
    norm_num [App22.LynchStrategy.calculate_score, App22.LynchStrategy.growth_score,
      App22.LynchStrategy.valuation_score, App22.LynchStrategy.quality_score,
      App.LynchStrategy.calculate_score, lossStock, baseStock]

/-- C3 counterexample: at roe = 15, revenue_growth = 10,
profit_growth = 10 the Buffett moat component is 1.5 + 1.0 + 1.0 = 3.5,
so it does exceed 3.0 (the moat code is identical in app22.py and
investment_screener_app.py). -/
theorem buffett_moat_exceeds_three :
    App22.BuffettStrategy.moat_score moatMaxStock = 3.5
    ∧ ¬ App22.BuffettStrategy.moat_score moatMaxStock ≤ 3 := by
  norm_num [App22.BuffettStrategy.moat_score, moatMaxStock, baseStock]

/-- C3 (amended): the Buffett moat component (roe tier at most 1.5 plus
revenue-growth tier at most 1.0 plus profit-growth tier at most 1.0)
never exceeds 3.5, for every record. -/
theorem buffett_moat_le_three_point_five :
    ∀ s : App22.Stock, App22.BuffettStrategy.moat_score s ≤ 3.5 := by
  intro s
  unfold App22.BuffettStrategy.moat_score
  split_ifs <;> norm_num

/-- C4: in both post-processing variants (app22.py with the 3-component
scale, investment-strategy.py with the 8-10 point scale) the
recommendation is StrongBuy only when the grade is S and Buy only when
the grade is S or A. -/
theorem recommendation_requires_grade :
    ∀ (g : Grade) (s : App22.Stock) (t : InvStrat.Stock),
      (App22.get_recommendation g s = Rec.strongBuy → g = Grade.S)
      ∧ (App22.get_recommendation g s = Rec.buy → g = Grade.S ∨ g = Grade.A)
      ∧ (InvStrat.get_recommendation g t = Rec.strongBuy → g = Grade.S)
      ∧ (InvStrat.get_recommendation g t = Rec.buy → g = Grade.S ∨ g = Grade.A) := by
  intro g s t
  cases g <;>
    refine ⟨?_, ?_, ?_, ?_⟩ <;>
      simp only [App22.get_recommendation, InvStrat.get_recommendation] <;>
        split_ifs <;> simp_all

/-- Witness for C4 at concrete inputs: grade S with per = 10, pbr = 1
yields StrongBuy in app22.py and in investment-strategy.py, and grade A
yields Buy in both; the implications of the theorem are discharged at
those points. -/
theorem recommendation_requires_grade_witness :
    Grade.S = Grade.S
    ∧ (Grade.A = Grade.S ∨ Grade.A = Grade.A)
    ∧ (Grade.A = Grade.S ∨ Grade.A = Grade.A) := by
  refine ⟨?_, ?_, ?_⟩
  · exact (recommendation_requires_grade Grade.S
      { baseStock with per := 10, pbr := 1 }
      { invBaseStock with per := 10, pbr := 1 }).1
      (by norm_num [App22.get_recommendation, baseStock])
  · exact (recommendation_requires_grade Grade.A
      { baseStock with per := 10, pbr := 1 }
      { invBaseStock with per := 10, pbr := 1 }).2.1
      (by norm_num [App22.get_recommendation, baseStock]
          exact fun h => nomatch h)
  · exact (recommendation_requires_grade Grade.A
      { baseStock with per := 10, pbr := 1 }
      { invBaseStock with per := 10, pbr := 1 }).2.2.2
      (by norm_num [InvStrat.get_recommendation, invBaseStock]
          exact fun h => nomatch h)

/-- C5: get_grade is monotone non-decreasing in the score under the
grade order S > A > B > C > D, in both threshold families
(4.0/3.5/3.0/2.5 of app22.py and 8.0/7.0/6.0/5.0 of
investment-strategy.py). -/
theorem get_grade_monotone :
    ∀ x y : ℚ, y ≤ x →
      (App22.get_grade y).rank ≤ (App22.get_grade x).rank
      ∧ (InvStrat.get_grade y).rank ≤ (InvStrat.get_grade x).rank := by
  intro x y h
  unfold App22.get_grade InvStrat.get_grade
  constructor <;> split_ifs <;> simp [Grade.rank] <;> linarith

/-- Witness for C5 at x = 4, y = 3. -/
theorem get_grade_monotone_witness :
    (App22.get_grade 3).rank ≤ (App22.get_grade 4).rank
    ∧ (InvStrat.get_grade 3).rank ≤ (InvStrat.get_grade 4).rank :=
  get_grade_monotone 4 3 (by norm_num)

/-- C6: on the example record (roe=18.5, revenueGrowth=8.5,
profitGrowth=12.3, equityRatio=85.2, debtRatio=15.2, currentRatio=2.1,
per=12.5, pbr=1.2) the app22.py Buffett strategy returns moat=3.0,
management=2.0, health=2.0, total 7.0, grade S, recommendation
StrongBuy. -/
theorem buffett_example_record_strong_buy :
    (App22.BuffettStrategy.calculate_score exampleStock).total_score = 7
    ∧ (App22.BuffettStrategy.calculate_score exampleStock).grade = Grade.S
    ∧ (App22.BuffettStrategy.calculate_score exampleStock).recommendation = Rec.strongBuy
    ∧ (App22.BuffettStrategy.calculate_score exampleStock).details
        = [("moat", 3), ("management", 2), ("health", 2)] := by
  refine ⟨?_, ?_, ?_, ?_⟩ <;>
    norm_num [App22.BuffettStrategy.calculate_score, App22.BuffettStrategy.moat_score,
      App22.BuffettStrategy.management_score, App22.BuffettStrategy.health_score,
      App22.get_grade, App22.get_recommendation, exampleStock, baseStock]

/-- Rounding to two decimal places preserves non-negativity. -/
theorem InvStrat.round2_nonneg {x : ℚ} (hx : 0 ≤ x) : 0 ≤ InvStrat.round2 x := by
  unfold InvStrat.round2
  have h : (0 : ℤ) ≤ round (x * 100) := by
    rw [round_eq]
    exact Int.le_floor.mpr (by push_cast; linarith)
  have h2 : (0 : ℚ) ≤ ((round (x * 100) : ℤ) : ℚ) := by exact_mod_cast h
  exact div_nonneg h2 (by norm_num)

/-- C2: for every record, each of the six strategies in each of the
three implementation families returns a non-negative total score.  In
this rational-number embedding every value is finite by construction;
the divisions of the source are reproduced with their guards (per is
divided only under a per > 0 test, and the Lynch PEG denominator of
app.py and app22.py is max(profit_growth, 1) ≥ 1), so no formula is
ever evaluated on a zero denominator. -/
theorem all_strategies_total_score_nonneg :
    ∀ (s : App22.Stock) (t : InvStrat.Stock),
      0 ≤ (App22.BuffettStrategy.calculate_score s).total_score
      ∧ 0 ≤ (App22.LynchStrategy.calculate_score s).total_score
      ∧ 0 ≤ (App22.GrahamStrategy.calculate_score s).total_score
      ∧ 0 ≤ (App22.FisherStrategy.calculate_score s).total_score
      ∧ 0 ≤ (App22.MungerStrategy.calculate_score s).total_score
      ∧ 0 ≤ (App22.GreenblattStrategy.calculate_score s).total_score
      ∧ 0 ≤ (App.BuffettStrategy.calculate_score s).total_score
      ∧ 0 ≤ (App.LynchStrategy.calculate_score s).total_score
      ∧ 0 ≤ (App.GrahamStrategy.calculate_score s).total_score
      ∧ 0 ≤ (App.FisherStrategy.calculate_score s).total_score
      ∧ 0 ≤ (App.MungerStrategy.calculate_score s).total_score
      ∧ 0 ≤ (App.GreenblattStrategy.calculate_score s).total_score
      ∧ 0 ≤ (InvStrat.BuffettStrategy.calculate_score t).total_score
      ∧ 0 ≤ (InvStrat.LynchStrategy.calculate_score t).total_score
      ∧ 0 ≤ (InvStrat.GrahamStrategy.calculate_score t).total_score
      ∧ 0 ≤ (InvStrat.FisherStrategy.calculate_score t).total_score
      ∧ 0 ≤ (InvStrat.MungerStrategy.calculate_score t).total_score
      ∧ 0 ≤ (InvStrat.GreenblattStrategy.calculate_score t).total_score := by
  intro s t
  refine ⟨?_, ?_, ?_, ?_, ?_, ?_, ?_, ?_, ?_, ?_, ?_, ?_, ?_, ?_, ?_, ?_, ?_, ?_⟩
  · simp only [App22.BuffettStrategy.calculate_score, App22.BuffettStrategy.moat_score,
      App22.BuffettStrategy.management_score, App22.BuffettStrategy.health_score]
    positivity
  · simp only [App22.LynchStrategy.calculate_score, App22.LynchStrategy.growth_score,
      App22.LynchStrategy.valuation_score, App22.LynchStrategy.quality_score]
    positivity
  · simp only [App22.GrahamStrategy.calculate_score, App22.GrahamStrategy.value_score,
      App22.GrahamStrategy.safety_score, App22.GrahamStrategy.dividend_score]
    positivity
  · simp only [App22.FisherStrategy.calculate_score, App22.FisherStrategy.innovation_score,
      App22.FisherStrategy.growth_score, App22.FisherStrategy.management_score]
    positivity
  · simp only [App22.MungerStrategy.calculate_score, App22.MungerStrategy.simplicity_score,
      App22.MungerStrategy.competitive_score, App22.MungerStrategy.rational_score]
    positivity
  · simp only [App22.GreenblattStrategy.calculate_score, App22.GreenblattStrategy.roc_score,
      App22.GreenblattStrategy.earnings_yield_score]
    positivity
  · simp only [App.BuffettStrategy.calculate_score]
    positivity
  · simp only [App.LynchStrategy.calculate_score]
    positivity
  · simp only [App.GrahamStrategy.calculate_score]
    positivity
  · simp only [App.FisherStrategy.calculate_score]
    positivity
  · simp only [App.MungerStrategy.calculate_score]
    positivity
  · simp only [App.GreenblattStrategy.calculate_score]
    positivity
  · simp only [InvStrat.BuffettStrategy.calculate_score, InvStrat.BuffettStrategy.moat,
      InvStrat.BuffettStrategy.financial_health, InvStrat.BuffettStrategy.profitability,
      InvStrat.BuffettStrategy.valuation]
    refine InvStrat.round2_nonneg ?_
    positivity
  · simp only [InvStrat.LynchStrategy.calculate_score, InvStrat.LynchStrategy.peg,
      InvStrat.LynchStrategy.growth, InvStrat.LynchStrategy.profitability]
    refine InvStrat.round2_nonneg ?_
    positivity
  · simp only [InvStrat.GrahamStrategy.calculate_score, InvStrat.GrahamStrategy.valuation,
      InvStrat.GrahamStrategy.financial_stability, InvStrat.GrahamStrategy.profitability]
    refine InvStrat.round2_nonneg ?_
    positivity
  · simp only [InvStrat.FisherStrategy.calculate_score, InvStrat.FisherStrategy.innovation,
      InvStrat.FisherStrategy.growth, InvStrat.FisherStrategy.management]
    refine InvStrat.round2_nonneg ?_
    positivity
  · simp only [InvStrat.MungerStrategy.calculate_score,
      InvStrat.MungerStrategy.business_quality,
      InvStrat.MungerStrategy.competitive_advantage, InvStrat.MungerStrategy.valuation]
    refine InvStrat.round2_nonneg ?_
    positivity
  · simp only [InvStrat.GreenblattStrategy.calculate_score,
      InvStrat.GreenblattStrategy.capital_return,
      InvStrat.GreenblattStrategy.earnings_yield]
    refine InvStrat.round2_nonneg ?_
    positivity

/-- C10: a record with per = 0 (the loss-making sentinel) can still be
recommended StrongBuy by the app22.py post-processing, because the
valuation guard per ≤ 20 is satisfied by the sentinel 0: strong Buffett
fundamentals with per = 0, pbr = 1 score 7.5, grade S, StrongBuy. -/
theorem per_zero_sentinel_gets_strong_buy :
    ∃ s : App22.Stock, s.per = 0
      ∧ (App22.BuffettStrategy.calculate_score s).recommendation = Rec.strongBuy := by
  refine ⟨perZeroStrongStock, rfl, ?_⟩
  norm_num [App22.BuffettStrategy.calculate_score, App22.BuffettStrategy.moat_score,
    App22.BuffettStrategy.management_score, App22.BuffettStrategy.health_score,
    App22.get_grade, App22.get_recommendation, perZeroStrongStock, baseStock]

/-- C7: the ranked output of the stocks query is pairwise sorted by
descending total score, is a permutation of the scored input in which
records of equal total score keep their input order (stability of the
sort), and is truncated to the first limit entries exactly when
limit > 0, while limit ≤ 0 returns the whole ranked list. -/
theorem get_stocks_ranked_sorted_truncated :
    ∀ (style : String) (stocks : List App22.Stock) (limit : Int),
      (App22.get_stocks style stocks limit).Pairwise App22.scoreGE
      ∧ (App22.ranked style stocks).Perm (App22.analyzed_stocks style stocks)
      ∧ (∀ k : ℚ,
          (App22.ranked style stocks).filter (fun e => decide (e.2.total_score = k))
            = (App22.analyzed_stocks style stocks).filter
                (fun e => decide (e.2.total_score = k)))
      ∧ (0 < limit →
          App22.get_stocks style stocks limit
            = (App22.ranked style stocks).take limit.toNat)
      ∧ (limit ≤ 0 →
          App22.get_stocks style stocks limit = App22.ranked style stocks) := by
  intro style stocks limit
  have hs : (App22.ranked style stocks).Pairwise App22.scoreGE :=
    List.sorted_insertionSort App22.scoreGE (App22.analyzed_stocks style stocks)
  refine ⟨?_, ?_, ?_, ?_, ?_⟩
  · simp only [App22.get_stocks]
    split
    · exact hs.sublist (List.take_sublist _ _)
    · exact hs
  · exact List.perm_insertionSort App22.scoreGE (App22.analyzed_stocks style stocks)
  · intro k
    exact filter_insertionSort App22.scoreGE (fun e => decide (e.2.total_score = k))
      (fun x y hx hr => by
        simp only [decide_eq_true_eq] at hx
        simp only [decide_eq_false_iff_not]
        intro hy
        exact hr (le_of_eq (hy.trans hx.symm)))
      (App22.analyzed_stocks style stocks)
  · intro h
    simp only [App22.get_stocks]
    rw [if_pos h]
  · intro h
    simp only [App22.get_stocks]
    rw [if_neg (not_lt.mpr h)]

/-- Witness for C7: the truncation branches discharged at limit = 1 and
limit = 0 on a concrete query. -/
theorem get_stocks_ranked_sorted_truncated_witness :
    App22.get_stocks "buffett" [] 1 = (App22.ranked "buffett" []).take (1 : Int).toNat
    ∧ App22.get_stocks "buffett" [] 0 = App22.ranked "buffett" [] :=
  ⟨(get_stocks_ranked_sorted_truncated "buffett" [] 1).2.2.2.1 (by norm_num),
   (get_stocks_ranked_sorted_truncated "buffett" [] 0).2.2.2.2 le_rfl⟩

/-- C8: any strategy key other than the six known ones selects the
Buffett strategy (the dictionary lookup default), and the stocks query
then returns exactly the output of an explicit buffett request. -/
theorem invalid_style_defaults_to_buffett :
    ∀ style : String,
      style ∉ ["buffett", "lynch", "graham", "fisher", "munger", "greenblatt"] →
      App22.INVESTMENT_STRATEGIES_get style = App22.StrategyTag.buffett
      ∧ ∀ (stocks : List App22.Stock) (limit : Int),
          App22.get_stocks style stocks limit
            = App22.get_stocks "buffett" stocks limit := by
  intro style h
  simp only [List.mem_cons, List.not_mem_nil, or_false, not_or] at h
  obtain ⟨h1, h2, h3, h4, h5, h6⟩ := h
  have htag : App22.INVESTMENT_STRATEGIES_get style = App22.StrategyTag.buffett := by
    unfold App22.INVESTMENT_STRATEGIES_get
    rw [if_neg h1, if_neg h2, if_neg h3, if_neg h4, if_neg h5, if_neg h6]
  have hb : App22.INVESTMENT_STRATEGIES_get "buffett" = App22.StrategyTag.buffett := by
    unfold App22.INVESTMENT_STRATEGIES_get
    rw [if_pos rfl]
  refine ⟨htag, ?_⟩
  intro stocks limit
  unfold App22.get_stocks App22.ranked App22.analyzed_stocks
  rw [htag, hb]

/-- Witness for C8 at the concrete unknown key "magic". -/
theorem invalid_style_defaults_to_buffett_witness :
    "magic" ∉ ["buffett", "lynch", "graham", "fisher", "munger", "greenblatt"]
    ∧ App22.get_stocks "magic" [] 5 = App22.get_stocks "buffett" [] 5 := by
  have h : "magic" ∉ ["buffett", "lynch", "graham", "fisher", "munger", "greenblatt"] := by
    simp
  exact ⟨h, (invalid_style_defaults_to_buffett "magic" h).2 [] 5⟩

/-- C9: for each of the six strategies there is a metrics record on
which the app.py, app22.py and investment-strategy.py implementations
return three pairwise different total scores, so the repository holds
at least three divergent rule sets per strategy. -/
theorem three_rule_sets_divergent :
    (∃ m : Metrics,
      (App22.BuffettStrategy.calculate_score m.toApp22).total_score
          ≠ (App.BuffettStrategy.calculate_score m.toApp22).total_score
        ∧ (App22.BuffettStrategy.calculate_score m.toApp22).total_score
          ≠ (InvStrat.BuffettStrategy.calculate_score m.toInvStrat).total_score
        ∧ (App.BuffettStrategy.calculate_score m.toApp22).total_score
          ≠ (InvStrat.BuffettStrategy.calculate_score m.toInvStrat).total_score)
    ∧ (∃ m : Metrics,
      (App22.LynchStrategy.calculate_score m.toApp22).total_score
          ≠ (App.LynchStrategy.calculate_score m.toApp22).total_score
        ∧ (App22.LynchStrategy.calculate_score m.toApp22).total_score
          ≠ (InvStrat.LynchStrategy.calculate_score m.toInvStrat).total_score
        ∧ (App.LynchStrategy.calculate_score m.toApp22).total_score
          ≠ (InvStrat.LynchStrategy.calculate_score m.toInvStrat).total_score)
    ∧ (∃ m : Metrics,
      (App22.GrahamStrategy.calculate_score m.toApp22).total_score
          ≠ (App.GrahamStrategy.calculate_score m.toApp22).total_score
        ∧ (App22.GrahamStrategy.calculate_score m.toApp22).total_score
          ≠ (InvStrat.GrahamStrategy.calculate_score m.toInvStrat).total_score
        ∧ (App.GrahamStrategy.calculate_score m.toApp22).total_score
          ≠ (InvStrat.GrahamStrategy.calculate_score m.toInvStrat).total_score)
    ∧ (∃ m : Metrics,
      (App22.FisherStrategy.calculate_score m.toApp22).total_score
          ≠ (App.FisherStrategy.calculate_score m.toApp22).total_score
        ∧ (App22.FisherStrategy.calculate_score m.toApp22).total_score
          ≠ (InvStrat.FisherStrategy.calculate_score m.toInvStrat).total_score
        ∧ (App.FisherStrategy.calculate_score m.toApp22).total_score
          ≠ (InvStrat.FisherStrategy.calculate_score m.toInvStrat).total_score)
    ∧ (∃ m : Metrics,
      (App22.MungerStrategy.calculate_score m.toApp22).total_score
          ≠ (App.MungerStrategy.calculate_score m.toApp22).total_score
        ∧ (App22.MungerStrategy.calculate_score m.toApp22).total_score
          ≠ (InvStrat.MungerStrategy.calculate_score m.toInvStrat).total_score
        ∧ (App.MungerStrategy.calculate_score m.toApp22).total_score
          ≠ (InvStrat.MungerStrategy.calculate_score m.toInvStrat).total_score)
    ∧ (∃ m : Metrics,
      (App22.GreenblattStrategy.calculate_score m.toApp22).total_score
          ≠ (App.GreenblattStrategy.calculate_score m.toApp22).total_score
        ∧ (App22.GreenblattStrategy.calculate_score m.toApp22).total_score
          ≠ (InvStrat.GreenblattStrategy.calculate_score m.toInvStrat).total_score
        ∧ (App.GreenblattStrategy.calculate_score m.toApp22).total_score
          ≠ (InvStrat.GreenblattStrategy.calculate_score m.toInvStrat).total_score) := by
  refine ⟨⟨zeroMetrics, ?_, ?_, ?_⟩, ⟨lynchSepMetrics, ?_, ?_, ?_⟩,
    ⟨grahamSepMetrics, ?_, ?_, ?_⟩, ⟨zeroMetrics, ?_, ?_, ?_⟩,
    ⟨zeroMetrics, ?_, ?_, ?_⟩, ⟨greenblattSepMetrics, ?_, ?_, ?_⟩⟩ <;>
  norm_num [Metrics.toApp22, Metrics.toInvStrat, zeroMetrics, lynchSepMetrics,
    grahamSepMetrics, greenblattSepMetrics, baseStock, invBaseStock,
    App22.BuffettStrategy.calculate_score, App22.BuffettStrategy.moat_score,
    App22.BuffettStrategy.management_score, App22.BuffettStrategy.health_score,
    App22.LynchStrategy.calculate_score, App22.LynchStrategy.growth_score,
    App22.LynchStrategy.valuation_score, App22.LynchStrategy.quality_score,
    App22.GrahamStrategy.calculate_score, App22.GrahamStrategy.value_score,
    App22.GrahamStrategy.safety_score, App22.GrahamStrategy.dividend_score,
    App22.FisherStrategy.calculate_score, App22.FisherStrategy.innovation_score,
    App22.FisherStrategy.growth_score, App22.FisherStrategy.management_score,
    App22.MungerStrategy.calculate_score, App22.MungerStrategy.simplicity_score,
    App22.MungerStrategy.competitive_score, App22.MungerStrategy.rational_score,
    App22.GreenblattStrategy.calculate_score, App22.GreenblattStrategy.roc_score,
    App22.GreenblattStrategy.earnings_yield_score,
    App.BuffettStrategy.calculate_score, App.LynchStrategy.calculate_score,
    App.GrahamStrategy.calculate_score, App.FisherStrategy.calculate_score,
    App.MungerStrategy.calculate_score, App.GreenblattStrategy.calculate_score,
    InvStrat.BuffettStrategy.calculate_score, InvStrat.BuffettStrategy.moat,
    InvStrat.BuffettStrategy.financial_health, InvStrat.BuffettStrategy.profitability,
    InvStrat.BuffettStrategy.valuation,
    InvStrat.LynchStrategy.calculate_score, InvStrat.LynchStrategy.peg,
    InvStrat.LynchStrategy.growth, InvStrat.LynchStrategy.profitability,
    InvStrat.GrahamStrategy.calculate_score, InvStrat.GrahamStrategy.valuation,
    InvStrat.GrahamStrategy.financial_stability, InvStrat.GrahamStrategy.profitability,
    InvStrat.FisherStrategy.calculate_score, InvStrat.FisherStrategy.innovation,
    InvStrat.FisherStrategy.growth, InvStrat.FisherStrategy.management,
    InvStrat.MungerStrategy.calculate_score, InvStrat.MungerStrategy.business_quality,
    InvStrat.MungerStrategy.competitive_advantage, InvStrat.MungerStrategy.valuation,
    InvStrat.GreenblattStrategy.calculate_score, InvStrat.GreenblattStrategy.capital_return,
    InvStrat.GreenblattStrategy.earnings_yield,
    InvStrat.round2, round_eq]
